import Mathlib

/-!
Shallow embedding of the allocator component of the repository
(src/unnamed/part_000 and src/src/common/allocator.cpp): the Allocator
operations AllocateData / FreeData / ReallocateData, the AllocatedData owned
buffer, and the AllocatorDebugInfo debug instrumentation.

The translation unit src/unnamed/part_000 defines LEMON_MALLOC (line 25), so
the branches compiled into the program are the lemon_vmm ones; the
ifndef-LEMON_MALLOC branches (the function-pointer backend path with the
null-result checks) are embedded separately under the name suffix Generic.
D_ASSERT is a no-op outside debug builds; the debug instrumentation
(ifdef DEBUG, lines 245-270) is embedded as AllocatorDebugInfo and composed
into the Dbg-suffixed operation variants.  Machine integers (idx_t, i.e.
uint64_t) are embedded as Nat, with reduction modulo 2^64 made explicit
where wraparound can occur (the atomic allocation counter).
-/

namespace DuckDBAlloc

/-- Modelled from the spec: MAXIMUM_ALLOC_SIZE, the hard allocation-size
ceiling.  It is declared in the allocator header, which is not under src/;
the source only compares against it (part_000 lines 129 and 179).  Nothing
below depends on its exact value, only on comparisons against it. -/
def MAXIMUM_ALLOC_SIZE : Nat := 281474976710656

/-- Modulus of idx_t / uint64_t arithmetic. -/
def U64 : Nat := 2 ^ 64

/-- Failure outcomes of the embedded operations.  Each constructor records
one failure site of the source:
  sizeLimitExceeded   = InternalException "Requested (re-)allocation size of
                        %llu is out of range ..." (part_000 lines 131, 181);
  invalidArgument     = InternalException "AllocatedData object constructed
                        with nullptr" (part_000 line 36);
  outOfMemory         = throw std::bad_alloc() on a null backend result
                        (part_000 lines 144, 195, ifndef-LEMON_MALLOC branch);
  internalConsistency = a failing D_ASSERT in a debug build (part_000 lines
                        160, 254, 259, 261);
  undefinedBehavior   = C++ undefined behavior in the embedded fragment:
                        memcpy through a null or dangling address, or past
                        the end of a heap block. -/
inductive AllocError where
  | sizeLimitExceeded
  | invalidArgument
  | outOfMemory
  | internalConsistency
  | undefinedBehavior
deriving DecidableEq

/-- Modelled from the spec: the backend (lemon_vmm's lemon_malloc/lemon_free;
lemon.h is not under src/), following the backend contract of spec section
4.1 and its "counting fake backend": an association-list heap of blocks,
a bump address counter, a byte capacity after which allocation returns null
(exhaustion), and counters of backend allocate/free invocations.  A fresh
block holds exactly the requested number of bytes (the contract promises "at
least size", so exactly size is a conforming backend), zero-initialised. -/
structure Heap where
  blocks : List (Nat × List Nat)
  next : Nat
  capacity : Nat
  used : Nat
  allocCalls : Nat
  freeCalls : Nat
deriving DecidableEq

/-- Content of the block at address p, if one is live there. -/
def Heap.lookupBlock (h : Heap) (p : Nat) : Option (List Nat) :=
  (h.blocks.find? (fun b => b.1 == p)).map (fun b => b.2)

/-- Backend allocate (lemon_malloc): null on exhaustion, otherwise a fresh
block of exactly the requested size.  Always counts as one backend call. -/
def Heap.malloc (h : Heap) (size : Nat) : Option Nat × Heap :=
  if h.used + size ≤ h.capacity then
    (some h.next,
     { h with blocks := (h.next, List.replicate size 0) :: h.blocks,
              next := h.next + 1,
              used := h.used + size,
              allocCalls := h.allocCalls + 1 })
  else
    (none, { h with allocCalls := h.allocCalls + 1 })

/-- Backend free (lemon_free): drops the block at p.  Always counts as one
backend call. -/
def Heap.free (h : Heap) (p : Nat) : Heap :=
  { h with blocks := h.blocks.filter (fun b => !(b.1 == p)),
           freeCalls := h.freeCalls + 1 }

/-- Read n bytes starting at address p; none when no block is live at p or
the block is shorter than n (an out-of-bounds read, undefined behavior). -/
def Heap.readBytes (h : Heap) (p n : Nat) : Option (List Nat) :=
  match h.lookupBlock p with
  | none => none
  | some bs => if n ≤ bs.length then some (bs.take n) else none

/-- Write the given bytes starting at address p; none when no block is live
at p or the data does not fit in the block (an out-of-bounds write,
undefined behavior). -/
def Heap.writeBytes (h : Heap) (p : Nat) (data : List Nat) : Option Heap :=
  match h.lookupBlock p with
  | none => none
  | some bs =>
    if data.length ≤ bs.length then
      some { h with blocks :=
        h.blocks.map (fun b => if b.1 == p then (b.1, data ++ bs.drop data.length) else b) }
    else none

/-- C memcpy(dst, src, n) over the heap model; none models undefined
behavior (null/dangling address or an out-of-bounds access). -/
def memcpy (h : Heap) (dst src n : Nat) : Option Heap :=
  match h.readBytes src n with
  | none => none
  | some data => h.writeBytes dst data

/-- Allocator::AllocateData(size), part_000 lines 127-154, as compiled
(LEMON_MALLOC defined, release build).  D_ASSERT(size > 0) at line 128 is a
no-op; sizes at or above the ceiling throw (line 131); otherwise the result
of vmm.lemon_malloc(size) is returned to the caller without a null check
(the ifndef-LEMON_MALLOC null check at lines 143-145 is compiled out). -/
def AllocateData (h : Heap) (size : Nat) : Except AllocError (Option Nat × Heap) :=
  if MAXIMUM_ALLOC_SIZE ≤ size then
    .error .sizeLimitExceeded
  else
    .ok (h.malloc size)

/-- Allocator::FreeData(pointer, size), part_000 lines 156-173, as compiled:
early return on a null pointer, otherwise vmm.lemon_free(pointer).
D_ASSERT(size > 0) at line 160 is a no-op; size is otherwise unused. -/
def FreeData (h : Heap) (pointer : Option Nat) (size : Nat) : Heap :=
  match pointer with
  | none => h
  | some p =>
    let _ := size
    h.free p

/-- Allocator::ReallocateData(pointer, old_size, size), part_000 lines
175-210, as compiled: null pointer returns null before anything else (lines
176-178); the ceiling check follows (line 179); then the lemon branch (lines
200-208) allocates a new block, memcpy-copies old_size bytes from the old
block into it without checking the new address for null, frees the old
block, and returns the new address. -/
def ReallocateData (h : Heap) (pointer : Option Nat) (old_size size : Nat) :
    Except AllocError (Option Nat × Heap) :=
  match pointer with
  | none => .ok (none, h)
  | some p =>
    if MAXIMUM_ALLOC_SIZE ≤ size then
      .error .sizeLimitExceeded
    else
      match h.malloc size with
      | (none, _) => .error .undefinedBehavior
      | (some addr, h1) =>
        match memcpy h1 addr p old_size with
        | none => .error .undefinedBehavior
        | some h2 => .ok (some addr, h2.free p)

/-- Allocator::AllocateData in the ifndef-LEMON_MALLOC branch (part_000
lines 135-137, 142-146; compiled out in the committed configuration):
the backend result is null-checked and a null raises std::bad_alloc. -/
def AllocateDataGeneric (h : Heap) (size : Nat) : Except AllocError (Nat × Heap) :=
  if MAXIMUM_ALLOC_SIZE ≤ size then
    .error .sizeLimitExceeded
  else
    match h.malloc size with
    | (none, _) => .error .outOfMemory
    | (some p, h1) => .ok (p, h1)

/-- Modelled from the spec: the backend reallocate of the contract in spec
section 4.1 (the concrete reallocate_function, Allocator::DefaultReallocate,
lives in the header, not under src/): a region of at least new_size bytes
whose first min(old_size, new_size) bytes equal the original content, or
null on exhaustion with the original block left valid. -/
def Heap.reallocB (h : Heap) (p old_size new_size : Nat) : Option Nat × Heap :=
  match h.malloc new_size with
  | (none, h1) => (none, h1)
  | (some addr, h1) =>
    match memcpy h1 addr p (min old_size new_size) with
    | none => (some addr, h1)
    | some h2 => (some addr, h2.free p)

/-- Allocator::ReallocateData in the ifndef-LEMON_MALLOC branch (part_000
lines 176-198; compiled out in the committed configuration): null pointer
returns null, the ceiling is enforced, the backend reallocate is called and
a null result raises std::bad_alloc. -/
def ReallocateDataGeneric (h : Heap) (pointer : Option Nat) (old_size size : Nat) :
    Except AllocError (Option Nat × Heap) :=
  match pointer with
  | none => .ok (none, h)
  | some p =>
    if MAXIMUM_ALLOC_SIZE ≤ size then
      .error .sizeLimitExceeded
    else
      match h.reallocB p old_size size with
      | (none, _) => .error .outOfMemory
      | (some addr, h1) => .ok (some addr, h1)

/-- AllocatorDebugInfo, part_000 lines 69-88 and 224-270: the atomic
outstanding-byte counter (an idx_t, so tracked modulo 2^64) and, in the
DUCKDB_DEBUG_ALLOCATION extended mode, the pointer-to-size registry (the
captured stack-trace string of line 249 carries no information the claims
touch and is omitted from the registry entries). -/
structure AllocatorDebugInfo where
  allocation_count : Nat
  pointers : List (Nat × Nat)
deriving DecidableEq

/-- AllocatorDebugInfo::AllocateData(pointer, size), part_000 lines 245-251:
allocation_count += size (uint64 wraparound made explicit), and the extended
registry gains the pointer with its size. -/
def AllocatorDebugInfo.recordAllocate (d : AllocatorDebugInfo) (pointer size : Nat) :
    AllocatorDebugInfo :=
  { allocation_count := (d.allocation_count + size) % U64,
    pointers := (pointer, size) :: d.pointers }

/-- AllocatorDebugInfo::FreeData(pointer, size), part_000 lines 253-265:
D_ASSERT(allocation_count >= size), then allocation_count -= size; in
extended mode the pointer must be registered with exactly this size
(D_ASSERT lines 259, 261) and is erased. -/
def AllocatorDebugInfo.recordFree (d : AllocatorDebugInfo) (pointer size : Nat) :
    Except AllocError AllocatorDebugInfo :=
  if d.allocation_count < size then
    .error .internalConsistency
  else
    match d.pointers.find? (fun b => b.1 == pointer) with
    | none => .error .internalConsistency
    | some entry =>
      if entry.2 = size then
        .ok { allocation_count := d.allocation_count - size,
              pointers := d.pointers.eraseP (fun b => b.1 == pointer) }
      else
        .error .internalConsistency

/-- State of an Allocator in a debug build: the backend heap plus the debug
instrumentation block. -/
structure DbgState where
  heap : Heap
  dbg : AllocatorDebugInfo
deriving DecidableEq

/-- Allocator::AllocateData in a debug build of the ifndef-LEMON_MALLOC
branch (part_000 lines 127-154 with DEBUG): ceiling check, backend allocate,
debug_info->AllocateData on the result (lines 138-141 precede the null
check), then the null check raising std::bad_alloc.  In the committed
configuration DEBUG does not build at all: with LEMON_MALLOC defined, line
140 names result before its declaration at line 149.  On the null path the
source records the (null) result before throwing, but the thrown error
discards the instrumentation state in this embedding, so the record is kept
only on the success branch. -/
def AllocateDataDbg (st : DbgState) (size : Nat) : Except AllocError (Nat × DbgState) :=
  if MAXIMUM_ALLOC_SIZE ≤ size then
    .error .sizeLimitExceeded
  else
    match st.heap.malloc size with
    | (none, _) => .error .outOfMemory
    | (some p, h1) => .ok (p, ⟨h1, st.dbg.recordAllocate p size⟩)

/-- Allocator::FreeData in a debug build (part_000 lines 156-173 with
DEBUG): early return on null, D_ASSERT(size > 0), debug_info->FreeData,
then the backend free. -/
def FreeDataDbg (st : DbgState) (pointer : Option Nat) (size : Nat) :
    Except AllocError DbgState :=
  match pointer with
  | none => .ok st
  | some p =>
    if size = 0 then
      .error .internalConsistency
    else
      match st.dbg.recordFree p size with
      | .error e => .error e
      | .ok d1 => .ok ⟨st.heap.free p, d1⟩

/-- AllocatedData, the owned buffer: an allocator reference (embedded as an
identity token, none for the default-constructed empty buffer of part_000
lines 30-31), the pointer, and the allocated size. -/
structure AllocatedData where
  allocator : Option Nat
  pointer : Option Nat
  allocated_size : Nat
deriving DecidableEq

/-- AllocatedData::AllocatedData(allocator, pointer, allocated_size),
part_000 lines 33-38: stores the triple, but a null pointer throws
InternalException "AllocatedData object constructed with nullptr". -/
def AllocatedData.make (alloc : Nat) (pointer : Option Nat) (allocated_size : Nat) :
    Except AllocError AllocatedData :=
  match pointer with
  | none => .error .invalidArgument
  | some p => .ok ⟨some alloc, some p, allocated_size⟩

/-- AllocatedData move constructor, part_000 lines 43-47: the destination is
initialised with the source's allocator and a null pointer / zero size, then
pointer and allocated_size are swapped with the source.  Returns
(destination, source after the move). -/
def AllocatedData.moveCtor (other : AllocatedData) : AllocatedData × AllocatedData :=
  (⟨other.allocator, other.pointer, other.allocated_size⟩,
   ⟨other.allocator, none, 0⟩)

/-- AllocatedData move assignment, part_000 lines 49-54: std::swap of
allocator, pointer and allocated_size between destination and source.
Returns (destination, source after the move). -/
def AllocatedData.moveAssign (dst src : AllocatedData) : AllocatedData × AllocatedData :=
  (⟨src.allocator, src.pointer, src.allocated_size⟩,
   ⟨dst.allocator, dst.pointer, dst.allocated_size⟩)

/-- AllocatedData::Reset, part_000 lines 56-64 (also the destructor, line
39-41, which just calls Reset): early return when the pointer is null,
otherwise FreeData(pointer, allocated_size) on the owning allocator, then
allocated_size and pointer are cleared.  The owning allocator's backend
state is the Heap argument. -/
def AllocatedData.reset (ad : AllocatedData) (h : Heap) : AllocatedData × Heap :=
  match ad.pointer with
  | none => (ad, h)
  | some p => (⟨ad.allocator, none, 0⟩, FreeData h (some p) ad.allocated_size)

/-- An empty heap with room for a thousand bytes. -/
def hpRoomy : Heap := ⟨[], 1, 1000, 0, 0, 0⟩

/-- An exhausted empty heap: every backend allocate returns null. -/
def hpExhausted : Heap := ⟨[], 1, 0, 0, 0, 0⟩

/-- A heap holding one ten-byte block at address 1 with no room left. -/
def hpOneBlockFull : Heap := ⟨[(1, List.replicate 10 0)], 2, 10, 10, 1, 0⟩

/-- A heap holding one hundred-byte block at address 1 carrying the
deterministic byte pattern 0,1,...,99, with room to spare. -/
def hpPattern : Heap := ⟨[(1, List.range 100)], 2, 1000, 100, 1, 0⟩

/-- The heap reached from hpPattern by the compiled ReallocateData growing
the hundred-byte block at address 1 to two hundred bytes. -/
def hpGrown : Heap :=
  ⟨[(2, List.range 100 ++ List.replicate 100 0)], 3, 1000, 300, 2, 1⟩

/-- A live owned buffer: allocator 1, pointer 10, five bytes. -/
def adDst : AllocatedData := ⟨some 1, some 10, 5⟩

/-- A second live owned buffer: allocator 1, pointer 20, seven bytes. -/
def adSrc : AllocatedData := ⟨some 1, some 20, 7⟩

/-- A debug-build allocator state over the roomy heap with a zero counter
and an empty registry. -/
def stDbg0 : DbgState := ⟨hpRoomy, ⟨0, []⟩⟩

/-- The debug-build allocator state reached from stDbg0 by an eight-byte
allocation. -/
def stDbg1 : DbgState :=
  ⟨⟨[(1, List.replicate 8 0)], 2, 1000, 8, 1, 0⟩, ⟨8, [(1, 8)]⟩⟩

/-- Claim C1, counterexample: at size 0 the compiled AllocateData does not
fail with SizeLimitExceeded — the size-zero guard is only the no-op
D_ASSERT(size > 0) of line 128 — and the backend allocate IS invoked: on the
roomy heap the call succeeds and the backend allocate-call counter has gone
up by one. -/
theorem c1_counterexample :
    AllocateData hpRoomy 0 = .ok (some 1, ⟨[(1, [])], 2, 1000, 0, 1, 0⟩) ∧
    (⟨[(1, [])], 2, 1000, 0, 1, 0⟩ : Heap).allocCalls = hpRoomy.allocCalls + 1 :=
  ⟨rfl, rfl⟩

/-- Claim C1, amended: AllocateData(s) fails with SizeLimitExceeded without
invoking the backend exactly when s is at or above MAXIMUM_ALLOC_SIZE (the
error carries no heap, so no backend effect takes place); for every s below
the ceiling — size 0 included — the call goes straight to the backend
allocate and returns its result and state. -/
theorem c1_amended : ∀ (h : Heap) (s : Nat),
    (MAXIMUM_ALLOC_SIZE ≤ s → AllocateData h s = .error .sizeLimitExceeded) ∧
    (s < MAXIMUM_ALLOC_SIZE → AllocateData h s = .ok (h.malloc s)) := by
  intro h s
  constructor
  · intro hs
    simp [AllocateData, hs]
  · intro hs
    simp [AllocateData, Nat.not_le.mpr hs]

/-- Claim C1, witness for the amended theorem at the ceiling itself and at
size 8 on the roomy heap. -/
theorem c1_amended_witness :
    AllocateData hpRoomy MAXIMUM_ALLOC_SIZE = .error .sizeLimitExceeded ∧
    AllocateData hpRoomy 8 = .ok (hpRoomy.malloc 8) :=
  ⟨(c1_amended hpRoomy MAXIMUM_ALLOC_SIZE).1 (le_refl _),
   (c1_amended hpRoomy 8).2 (by decide)⟩

set_option maxRecDepth 10000 in
/-- Claim C2: the compiled ReallocateData copies old_size bytes — not
min(old_size, new_size) bytes — into the replacement block (part_000 line
204), so shrinking the hundred-byte block at address 1 to fifty bytes writes
a hundred bytes into a fifty-byte block: an out-of-bounds write (undefined
behavior) instead of the content-preserving success the spec requires.
Growing the same block to two hundred bytes succeeds and preserves the first
hundred bytes, confirming the growth half of the property. -/
theorem c2_code_bug :
    ReallocateData hpPattern (some 1) 100 50 = .error .undefinedBehavior ∧
    ReallocateData hpPattern (some 1) 100 200 = .ok (some 2, hpGrown) ∧
    hpGrown.readBytes 2 100 = hpPattern.readBytes 1 100 :=
  ⟨rfl, rfl, rfl⟩

/-- Claim C3, counterexample: on the exhausted heap the backend allocate
returns null, and the compiled AllocateData returns that null to the caller
as a success instead of failing with OutOfMemory (the null check of lines
143-145 sits in the compiled-out ifndef-LEMON_MALLOC branch); the compiled
ReallocateData feeds the null replacement address to memcpy (undefined
behavior), again not an OutOfMemory failure. -/
theorem c3_counterexample :
    (hpExhausted.malloc 10).1 = none ∧
    AllocateData hpExhausted 10 = .ok (none, ⟨[], 1, 0, 0, 1, 0⟩) ∧
    ReallocateData hpOneBlockFull (some 1) 10 20 = .error .undefinedBehavior :=
  ⟨rfl, rfl, rfl⟩

/-- Claim C3, amended: the null-backend-result-raises-OutOfMemory behavior
belongs to the ifndef-LEMON_MALLOC branch of AllocateData and
ReallocateData, which the committed configuration compiles out: there, a
null backend result for a valid size raises OutOfMemory rather than
reaching the caller. -/
theorem c3_amended : ∀ (h : Heap) (s p old_size : Nat),
    (s < MAXIMUM_ALLOC_SIZE → (h.malloc s).1 = none →
      AllocateDataGeneric h s = .error .outOfMemory) ∧
    (s < MAXIMUM_ALLOC_SIZE → (h.reallocB p old_size s).1 = none →
      ReallocateDataGeneric h (some p) old_size s = .error .outOfMemory) := by
  intro h s p old_size
  constructor
  · intro hs hnull
    unfold AllocateDataGeneric
    rw [if_neg (Nat.not_le.mpr hs)]
    rcases hm : h.malloc s with ⟨r, h1⟩
    rw [hm] at hnull
    simp only at hnull
    subst hnull
    rfl
  · intro hs hnull
    have base : ReallocateDataGeneric h (some p) old_size s
        = (if MAXIMUM_ALLOC_SIZE ≤ s then .error .sizeLimitExceeded
           else match h.reallocB p old_size s with
                | (none, _) => .error .outOfMemory
                | (some addr, h1) => .ok (some addr, h1)) := rfl
    rw [base, if_neg (Nat.not_le.mpr hs)]
    rcases hm : h.reallocB p old_size s with ⟨r, h1⟩
    rw [hm] at hnull
    simp only at hnull
    subst hnull
    rfl

/-- Claim C3, witness for the amended theorem: the generic-branch allocate
and reallocate both raise OutOfMemory on the exhausted heaps. -/
theorem c3_amended_witness :
    AllocateDataGeneric hpExhausted 10 = .error .outOfMemory ∧
    ReallocateDataGeneric hpOneBlockFull (some 1) 10 20 = .error .outOfMemory :=
  ⟨(c3_amended hpExhausted 10 1 10).1 (by decide) rfl,
   (c3_amended hpOneBlockFull 20 1 10).2 (by decide) rfl⟩

/-- Claim C4, counterexample: move assignment (part_000 lines 49-54) swaps
the two objects instead of clearing the source: after assigning over the
live destination adDst, the moved-from source holds adDst's old pointer 10
and size 5 — not the released state — and destructing it performs a backend
free call (the free-call counter goes up), contrary to the claim. -/
theorem c4_counterexample :
    (AllocatedData.moveAssign adDst adSrc).2.pointer = some 10 ∧
    (AllocatedData.moveAssign adDst adSrc).2.allocated_size = 5 ∧
    ((AllocatedData.moveAssign adDst adSrc).2.reset hpRoomy).2.freeCalls
      = hpRoomy.freeCalls + 1 :=
  ⟨rfl, rfl, rfl⟩

/-- Claim C4, amended: move construction transfers the (pointer, size) pair
and the allocator reference to the destination and leaves the source in the
released state (null pointer, zero size, allocator reference retained), so
destructing the moved-from source performs no free call; move assignment
instead swaps the full (allocator, pointer, size) triples of destination and
source, so the moved-from source takes over the destination's previous
state and is released only if the destination was empty. -/
theorem c4_amended : ∀ (src dst : AllocatedData) (h : Heap),
    (AllocatedData.moveCtor src).1
      = ⟨src.allocator, src.pointer, src.allocated_size⟩ ∧
    (AllocatedData.moveCtor src).2.allocator = src.allocator ∧
    (AllocatedData.moveCtor src).2.pointer = none ∧
    (AllocatedData.moveCtor src).2.allocated_size = 0 ∧
    (AllocatedData.moveCtor src).2.reset h = ((AllocatedData.moveCtor src).2, h) ∧
    AllocatedData.moveAssign dst src = (src, dst) := by
  intro src dst h
  obtain ⟨a1, p1, s1⟩ := src
  obtain ⟨a2, p2, s2⟩ := dst
  exact ⟨rfl, rfl, rfl, rfl, rfl, rfl⟩

/-- Claim C5: ReallocateData on a null pointer returns null with the heap
untouched — no backend call, no state change — for every old and new size
(part_000 lines 176-178). -/
theorem c5_null_realloc : ∀ (h : Heap) (old_size new_size : Nat),
    ReallocateData h none old_size new_size = .ok (none, h) :=
  fun _ _ _ => rfl

/-- Claim C6: FreeData on a null pointer is a no-op for every size, in the
compiled configuration (heap untouched, so no backend free call) and in a
debug build (outstanding-byte counter and extended registry untouched as
well); part_000 lines 157-159, allocator.cpp lines 46-48. -/
theorem c6_free_null_noop : ∀ (h : Heap) (st : DbgState) (s1 s2 : Nat),
    FreeData h none s1 = h ∧ FreeDataDbg st none s2 = .ok st :=
  fun _ _ _ _ => ⟨rfl, rfl⟩

/-- Claim C7: constructing an AllocatedData from an allocator reference, a
null pointer and any size throws InternalException "AllocatedData object
constructed with nullptr" (the InvalidArgument failure of the spec's error
taxonomy), and every successfully constructed AllocatedData carries a
non-null pointer; part_000 lines 33-38. -/
theorem c7_ctor_null : ∀ (a s : Nat) (pt : Option Nat) (ad : AllocatedData),
    AllocatedData.make a none s = .error .invalidArgument ∧
    (AllocatedData.make a pt s = .ok ad → ad.pointer.isSome = true) := by
  intro a s pt ad
  constructor
  · rfl
  · intro hmk
    cases pt with
    | none => simp [AllocatedData.make] at hmk
    | some p =>
      simp only [AllocatedData.make] at hmk
      injection hmk with h1
      rw [← h1]
      rfl

/-- Claim C7, witness: a null-pointer construction fails and the concrete
buffer produced from pointer 5 has a non-null pointer. -/
theorem c7_ctor_null_witness :
    AllocatedData.make 0 none 3 = .error .invalidArgument ∧
    (⟨some 0, some 5, 3⟩ : AllocatedData).pointer.isSome = true :=
  ⟨(c7_ctor_null 0 3 none ⟨some 0, some 5, 3⟩).1,
   (c7_ctor_null 0 3 (some 5) ⟨some 0, some 5, 3⟩).2 rfl⟩

/-- Recording an allocation of s bytes and then a free of the same pointer
and size returns the instrumentation block to its starting counter and
registry, provided the uint64 counter does not wrap. -/
theorem recordFree_recordAllocate (d : AllocatorDebugInfo) (q s : Nat)
    (hov : d.allocation_count + s < U64) :
    (d.recordAllocate q s).recordFree q s = .ok ⟨d.allocation_count, d.pointers⟩ := by
  unfold AllocatorDebugInfo.recordAllocate AllocatorDebugInfo.recordFree
  simp only [Nat.mod_eq_of_lt hov]
  rw [if_neg (Nat.not_lt.mpr (Nat.le_add_left s _))]
  rw [List.find?_cons_of_pos _ (by simp)]
  rw [List.eraseP_cons_of_pos (by simp)]
  simp

/-- Claim C8: in a debug build, a successful AllocateData of a valid size s
followed by FreeData of the returned pointer with the same size s leaves
the outstanding-byte counter allocation_count at exactly the value it held
before the pair of calls (part_000 lines 138-141, 161-164, 245-265); the
wraparound side condition holds in any reachable state since the counter
totals the outstanding bytes. -/
theorem c8_alloc_free_counter : ∀ (st : DbgState) (s p : Nat) (st1 : DbgState),
    0 < s → s < MAXIMUM_ALLOC_SIZE →
    st.dbg.allocation_count + s < U64 →
    AllocateDataDbg st s = .ok (p, st1) →
    ∃ st2, FreeDataDbg st1 (some p) s = .ok st2 ∧
      st2.dbg.allocation_count = st.dbg.allocation_count := by
  intro st s p st1 hpos hmax hov halloc
  unfold AllocateDataDbg at halloc
  rw [if_neg (Nat.not_le.mpr hmax)] at halloc
  rcases hm : st.heap.malloc s with ⟨r, h1⟩
  rw [hm] at halloc
  cases r with
  | none => exact absurd halloc (by simp)
  | some q =>
    rw [Except.ok.injEq, Prod.mk.injEq] at halloc
    obtain ⟨hq, hst⟩ := halloc
    subst hq
    subst hst
    refine ⟨⟨h1.free q, ⟨st.dbg.allocation_count, st.dbg.pointers⟩⟩, ?_, rfl⟩
    show (if s = 0 then (Except.error AllocError.internalConsistency : Except AllocError DbgState)
          else match (st.dbg.recordAllocate q s).recordFree q s with
               | .error e => .error e
               | .ok d1 => .ok ⟨h1.free q, d1⟩)
        = .ok ⟨h1.free q, ⟨st.dbg.allocation_count, st.dbg.pointers⟩⟩
    rw [if_neg (Nat.pos_iff_ne_zero.mp hpos)]
    rw [recordFree_recordAllocate st.dbg q s hov]

/-- Claim C8, witness: from the zero-counter debug state, an eight-byte
allocation followed by the matching free returns the counter to zero. -/
theorem c8_witness :
    ∃ st2, FreeDataDbg stDbg1 (some 1) 8 = .ok st2 ∧
      st2.dbg.allocation_count = stDbg0.dbg.allocation_count :=
  c8_alloc_free_counter stDbg0 8 1 stDbg1 (by decide) (by decide) (by decide) rfl

/-- Claim C9: Reset on a live buffer frees the stored region through the
owning allocator exactly once (the backend free-call counter goes up by
one) and clears pointer and size to the released state; a second Reset is a
no-op, changing neither the buffer nor the heap; part_000 lines 56-64. -/
theorem c9_reset_idempotent : ∀ (ad : AllocatedData) (h : Heap) (p : Nat),
    ad.pointer = some p →
    ((ad.reset h).1.pointer = none ∧
     (ad.reset h).1.allocated_size = 0 ∧
     (ad.reset h).2.freeCalls = h.freeCalls + 1 ∧
     (ad.reset h).1.reset (ad.reset h).2 = ((ad.reset h).1, (ad.reset h).2)) := by
  intro ad h p hp
  obtain ⟨al, ptr, sz⟩ := ad
  simp only at hp
  subst hp
  exact ⟨rfl, rfl, rfl, rfl⟩

/-- Claim C9, witness: resetting the live buffer adSrc over the roomy heap
releases it, performs exactly one free call, and a second reset is a no-op. -/
theorem c9_witness :
    (adSrc.reset hpRoomy).1.pointer = none ∧
    (adSrc.reset hpRoomy).1.allocated_size = 0 ∧
    (adSrc.reset hpRoomy).2.freeCalls = hpRoomy.freeCalls + 1 ∧
    (adSrc.reset hpRoomy).1.reset (adSrc.reset hpRoomy).2
      = ((adSrc.reset hpRoomy).1, (adSrc.reset hpRoomy).2) :=
  c9_reset_idempotent adSrc hpRoomy 20 rfl

/-- Claim C10: in ReallocateData the null-pointer check (lines 176-178)
precedes the size ceiling check (line 179): for every new size at or above
MAXIMUM_ALLOC_SIZE, a null pointer still yields the degenerate null success
with the heap untouched, while the same new size with a non-null pointer
fails with SizeLimitExceeded. -/
theorem c10_null_precedes_ceiling : ∀ (h : Heap) (old_size new_size : Nat),
    MAXIMUM_ALLOC_SIZE ≤ new_size →
    (ReallocateData h none old_size new_size = .ok (none, h) ∧
     ∀ p : Nat, ReallocateData h (some p) old_size new_size
       = .error .sizeLimitExceeded) := by
  intro h old_size new_size hn
  refine ⟨rfl, fun p => ?_⟩
  simp [ReallocateData, hn]

/-- Claim C10, witness: at new size exactly MAXIMUM_ALLOC_SIZE, the null
pointer returns the degenerate success and pointer 1 hits the ceiling. -/
theorem c10_witness :
    ReallocateData hpRoomy none 5 MAXIMUM_ALLOC_SIZE = .ok (none, hpRoomy) ∧
    ReallocateData hpRoomy (some 1) 5 MAXIMUM_ALLOC_SIZE
      = .error .sizeLimitExceeded :=
  ⟨(c10_null_precedes_ceiling hpRoomy 5 MAXIMUM_ALLOC_SIZE (le_refl _)).1,
   (c10_null_precedes_ceiling hpRoomy 5 MAXIMUM_ALLOC_SIZE (le_refl _)).2 1⟩

end DuckDBAlloc
